import Mathlib

/-!
Verification of `whisper_bridge.py`, a command-line shim that parses three
flags, imports three libraries, checks that the input file exists, loads a
whisper model on the CPU, transcribes one audio file and writes the result
as JSON to the output path, with a catch-all `except` block that writes an
error JSON and exits 1.

The script is embedded shallowly: the outcomes of the external steps
(the three imports, the `os.path.exists` check, `os.path.getsize`,
`whisper.load_model`, `model.transcribe`) are an explicit environment, and
a run is a pure function from the parsed command line and that environment
to an exit code, the single JSON write event (path, value, indent), and the
arguments of the two library calls.
-/

namespace WhisperBridge

/-- A JSON value, as produced by `json.dump`.  Numbers are modelled by
rationals, which cover the integers and the floating-point segment
timestamps that appear in the program's output. -/
inductive JsonValue where
  | str (s : String)
  | num (q : Rat)
  | arr (elems : List JsonValue)
  | obj (fields : List (String × JsonValue))

/-- The parsed arguments produced by `argparse` (lines 17-21):
`--input`/`-i` (required), `--output`/`-o` (required),
`--model`/`-m` (default "tiny"). -/
structure Args where
  input : String
  output : String
  model : String

/-- A command line, abstracted to which of the three declared options were
supplied and which unrecognised options appeared. -/
structure CmdLine where
  input : Option String
  output : Option String
  model : Option String
  unknown : List String

/-- `argparse` behaviour for the parser of lines 17-21: parsing succeeds
exactly when no unrecognised option is present and both required options
`--input` and `--output` were supplied; `--model` defaults to "tiny".
On failure `argparse` exits the process with status 2 before `main`'s
`try` block is entered. -/
def parseArgs (c : CmdLine) : Option Args :=
  match c.unknown, c.input, c.output with
  | [], some i, some o => some ⟨i, o, c.model.getD "tiny"⟩
  | _, _, _ => none

/-- One segment of the whisper library's result dictionary
(`result["segments"]`), with the fields read on lines 64-66. -/
structure TranscribeSegment where
  text : String
  start : Rat
  end_ : Rat

/-- The outcomes of the external steps of one run.  For each step that can
raise, `some msg` / `.error msg` is the message `str(e)` of the raised
exception. -/
structure Env where
  numpyImport : Option String
  torchImport : Option String
  whisperImport : Option String
  inputExists : Bool
  getSizeResult : Except String Nat
  loadModelResult : Except String Unit
  transcribeResult : Except String (List TranscribeSegment)

/-- One `open(path, "w")` followed by `json.dump(value, f, indent=indent)`. -/
structure WriteEvent where
  path : String
  value : JsonValue
  indent : Nat

/-- The observable outcome of one run of the script: the process exit
status, the JSON write performed (if any), and the arguments of the
`whisper.load_model` and `model.transcribe` calls (if made). -/
structure RunResult where
  exitCode : Nat
  written : Option WriteEvent
  loadCall : Option (String × String)
  transcribeCall : Option (String × Bool)

/-- Lines 63-67: one result segment reshaped into the output object. -/
def segmentToJson (s : TranscribeSegment) : JsonValue :=
  .obj [("text", .str s.text),
        ("start_time", .num s.start),
        ("end_time", .num s.end_)]

/-- Line 71: the JSON object written on the success path. -/
def successOutput (segments : List TranscribeSegment) : JsonValue :=
  .obj [("segments", .arr (segments.map segmentToJson))]

/-- Lines 41-44: the JSON object written when the input file does not
exist. -/
def missingInputOutput (input : String) : JsonValue :=
  .obj [("error", .str ("Input file does not exist: " ++ input)),
        ("segments", .arr [])]

/-- Lines 82-89: the JSON object written by the catch-all `except` block,
where `msg` is `str(e)`. -/
def errorOutput (msg : String) : JsonValue :=
  .obj [("error", .str msg),
        ("segments",
         .arr [.obj [("text", .str ("Error transcribing audio: " ++ msg)),
                     ("start_time", .num 0),
                     ("end_time", .num 0)]])]

/-- The whole of `main` (lines 16-92) together with the process exit of
line 95: argument parsing (exit 2 on failure, before the `try`), then the
three imports, the existence check with its early `return 1`, the size
check, model load, transcription, the success write and `return 0`, and
the catch-all `except` block writing `errorOutput` and returning 1. -/
def runMain (c : CmdLine) (env : Env) : RunResult :=
  match parseArgs c with
  | none =>
      { exitCode := 2, written := none, loadCall := none, transcribeCall := none }
  | some args =>
    match env.numpyImport with
    | some msg =>
        { exitCode := 1, written := some ⟨args.output, errorOutput msg, 2⟩,
          loadCall := none, transcribeCall := none }
    | none =>
    match env.torchImport with
    | some msg =>
        { exitCode := 1, written := some ⟨args.output, errorOutput msg, 2⟩,
          loadCall := none, transcribeCall := none }
    | none =>
    match env.whisperImport with
    | some msg =>
        { exitCode := 1, written := some ⟨args.output, errorOutput msg, 2⟩,
          loadCall := none, transcribeCall := none }
    | none =>
    if !env.inputExists then
        { exitCode := 1, written := some ⟨args.output, missingInputOutput args.input, 2⟩,
          loadCall := none, transcribeCall := none }
    else
    match env.getSizeResult with
    | .error msg =>
        { exitCode := 1, written := some ⟨args.output, errorOutput msg, 2⟩,
          loadCall := none, transcribeCall := none }
    | .ok _ =>
    match env.loadModelResult with
    | .error msg =>
        { exitCode := 1, written := some ⟨args.output, errorOutput msg, 2⟩,
          loadCall := some (args.model, "cpu"), transcribeCall := none }
    | .ok _ =>
    match env.transcribeResult with
    | .error msg =>
        { exitCode := 1, written := some ⟨args.output, errorOutput msg, 2⟩,
          loadCall := some (args.model, "cpu"),
          transcribeCall := some (args.input, false) }
    | .ok segs =>
        { exitCode := 0, written := some ⟨args.output, successOutput segs, 2⟩,
          loadCall := some (args.model, "cpu"),
          transcribeCall := some (args.input, false) }

/-- Look a key up in a JSON object's field list (first occurrence wins,
as in a Python dict literal without duplicate keys). -/
def lookupField : List (String × JsonValue) → String → Option JsonValue
  | [], _ => none
  | (k, v) :: rest, key => if k = key then some v else lookupField rest key

/-- The value of a key of a top-level JSON object, if present. -/
def getField (j : JsonValue) (key : String) : Option JsonValue :=
  match j with
  | .obj fields => lookupField fields key
  | _ => none

/-- Whether a top-level JSON object has a key. -/
def hasKey (j : JsonValue) (key : String) : Bool :=
  (getField j key).isSome

/-- The keys of a top-level JSON object, in order. -/
def topKeys : JsonValue → List String
  | .obj fields => fields.map Prod.fst
  | _ => []

/-- The paths the run opened for writing. -/
def writtenPaths (r : RunResult) : List String :=
  match r.written with
  | some w => [w.path]
  | none => []

/-- The environment actually raised an exception inside the `try` block,
with message `msg`: the disjuncts list, in program order, each step that
executes and raises, together with the success of every step before it. -/
def stepRaises (env : Env) (msg : String) : Prop :=
  env.numpyImport = some msg
  ∨ (env.numpyImport = none ∧ env.torchImport = some msg)
  ∨ (env.numpyImport = none ∧ env.torchImport = none ∧
     env.whisperImport = some msg)
  ∨ (env.numpyImport = none ∧ env.torchImport = none ∧
     env.whisperImport = none ∧ env.inputExists = true ∧
     env.getSizeResult = .error msg)
  ∨ (env.numpyImport = none ∧ env.torchImport = none ∧
     env.whisperImport = none ∧ env.inputExists = true ∧
     (∃ n, env.getSizeResult = .ok n) ∧ env.loadModelResult = .error msg)
  ∨ (env.numpyImport = none ∧ env.torchImport = none ∧
     env.whisperImport = none ∧ env.inputExists = true ∧
     (∃ n, env.getSizeResult = .ok n) ∧ env.loadModelResult = .ok () ∧
     env.transcribeResult = .error msg)

/-- A command line supplying both required options and no model. -/
def cmdFull : CmdLine := ⟨some "in.wav", some "out.json", none, []⟩

/-- A command line supplying no options at all. -/
def cmdNoArgs : CmdLine := ⟨none, none, none, []⟩

/-- A command line whose input and output paths are the same file. -/
def cmdSame : CmdLine := ⟨some "f", some "f", none, []⟩

/-- A sample result segment. -/
def seg1 : TranscribeSegment := ⟨"hello", 0, 2⟩

/-- An environment in which every external step succeeds and the
transcription yields one segment. -/
def envBenign : Env := ⟨none, none, none, true, .ok 5, .ok (), .ok [seg1]⟩

/-- An environment in which `import numpy` raises and the input file does
not exist. -/
def envImportFail : Env := ⟨some "boom", none, none, false, .ok 5, .ok (), .ok []⟩

/-- An environment in which every step up to the existence check succeeds
and the input file does not exist. -/
def envNoInput : Env := ⟨none, none, none, false, .ok 0, .ok (), .ok []⟩

/-- An environment in which everything succeeds except the transcription
call, which raises. -/
def envTranscribeFail : Env :=
  ⟨none, none, none, true, .ok 5, .ok (), .error "bad audio"⟩

lemma hasKey_errorOutput_segments (msg : String) :
    hasKey (errorOutput msg) "segments" = true := rfl

lemma hasKey_missingInputOutput_segments (i : String) :
    hasKey (missingInputOutput i) "segments" = true := rfl

lemma hasKey_successOutput_segments (segs : List TranscribeSegment) :
    hasKey (successOutput segs) "segments" = true := rfl

lemma hasKey_errorOutput_error (msg : String) :
    hasKey (errorOutput msg) "error" = true := rfl

lemma hasKey_missingInputOutput_error (i : String) :
    hasKey (missingInputOutput i) "error" = true := rfl

lemma hasKey_successOutput_error (segs : List TranscribeSegment) :
    hasKey (successOutput segs) "error" = false := rfl

lemma topKeys_successOutput (segs : List TranscribeSegment) :
    topKeys (successOutput segs) = ["segments"] := rfl

/-- Claim C6: argument parsing accepts exactly the three declared flags;
parsing succeeds exactly when no unrecognised option appears and the
required input and output options are supplied, the model option defaults
to "tiny" when absent, and is taken verbatim when present. -/
theorem C6_arg_parsing :
    (∀ c : CmdLine,
      (parseArgs c).isSome = true ↔
        (c.unknown = [] ∧ c.input.isSome = true ∧ c.output.isSome = true)) ∧
    (∀ i o : String, parseArgs ⟨some i, some o, none, []⟩ = some ⟨i, o, "tiny"⟩) ∧
    (∀ i o m : String, parseArgs ⟨some i, some o, some m, []⟩ = some ⟨i, o, m⟩) := by
  refine ⟨?_, ?_, ?_⟩
  · rintro ⟨inp, out, mdl, unk⟩
    cases unk <;> cases inp <;> cases out <;> simp [parseArgs]
  · intro i o
    rfl
  · intro i o m
    rfl

/-- Claim C6 witness: with both required options and no model option,
parsing yields the default model "tiny". -/
theorem C6_witness :
    parseArgs ⟨some "a.wav", some "b.json", none, []⟩ =
      some ⟨"a.wav", "b.json", "tiny"⟩ :=
  C6_arg_parsing.2.1 "a.wav" "b.json"

/-- Claim C1 counterexample: with no command-line options at all, argparse
exits with status 2 before the `try` block is entered, and nothing is ever
written, so the run ends without an output file containing a "segments"
key. -/
theorem C1_counterexample :
    (runMain cmdNoArgs envBenign).written = none ∧
    (runMain cmdNoArgs envBenign).exitCode = 2 :=
  ⟨rfl, rfl⟩

/-- Claim C1 (amended): for every run in which argument parsing succeeds,
whatever the outcome of the imports, the existence check, the model load
and the transcription, by exit the output path has been written with a
JSON object that has a "segments" key. -/
theorem C1_output_always_has_segments (c : CmdLine) (env : Env) (a : Args)
    (hp : parseArgs c = some a) :
    ∃ w : WriteEvent, (runMain c env).written = some w ∧ w.path = a.output ∧
      hasKey w.value "segments" = true := by
  obtain ⟨n, t, wi, ex, gs, lm, tr⟩ := env
  cases n <;> cases t <;> cases wi <;> cases ex <;> cases gs <;> cases lm <;>
    cases tr <;>
    simp [runMain, hp, hasKey_errorOutput_segments,
      hasKey_missingInputOutput_segments, hasKey_successOutput_segments]

/-- Claim C1 witness: a run with well-formed arguments and a benign
environment writes the output path with an object having a "segments"
key. -/
theorem C1_witness :
    ∃ w : WriteEvent, (runMain cmdFull envBenign).written = some w ∧
      w.path = "out.json" ∧ hasKey w.value "segments" = true :=
  C1_output_always_has_segments cmdFull envBenign ⟨"in.wav", "out.json", "tiny"⟩ rfl

/-- Claim C2 counterexample: when `import numpy` raises and the input file
does not exist, the run exits 1 but writes the catch-all error object,
whose "segments" value is not the empty list, so the claimed shape
`{"error": ..., "segments": []}` is not what is written. -/
theorem C2_counterexample :
    envImportFail.inputExists = false ∧
    (runMain cmdFull envImportFail).exitCode = 1 ∧
    (runMain cmdFull envImportFail).written =
      some ⟨"out.json", errorOutput "boom", 2⟩ ∧
    getField (errorOutput "boom") "segments" ≠ some (JsonValue.arr []) := by
  refine ⟨rfl, rfl, rfl, ?_⟩
  simp [getField, lookupField, errorOutput]

/-- Claim C2 (amended): for every run in which the three imports succeed
and the input path does not name an existing file, the program writes
`{"error": <message>, "segments": []}` to the output path and exits with
status 1. -/
theorem C2_missing_input (c : CmdLine) (env : Env) (a : Args)
    (hp : parseArgs c = some a)
    (hn : env.numpyImport = none) (ht : env.torchImport = none)
    (hw : env.whisperImport = none)
    (hex : env.inputExists = false) :
    (runMain c env).written = some ⟨a.output, missingInputOutput a.input, 2⟩ ∧
    (runMain c env).exitCode = 1 := by
  simp [runMain, hp, hn, ht, hw, hex]

/-- Claim C2 witness: a run with well-formed arguments, succeeding imports
and a missing input file writes the empty-segments error object and exits
1. -/
theorem C2_witness :
    (runMain cmdFull envNoInput).written =
      some ⟨"out.json", missingInputOutput "in.wav", 2⟩ ∧
    (runMain cmdFull envNoInput).exitCode = 1 :=
  C2_missing_input cmdFull envNoInput ⟨"in.wav", "out.json", "tiny"⟩
    rfl rfl rfl rfl rfl

/-- Claim C3: for every run in which a step inside the `try` block raises
an exception with message `msg`, the program writes
`{"error": msg, "segments": [{"text": "Error transcribing audio: " ++ msg,
"start_time": 0, "end_time": 0}]}` to the output path and exits with
status 1. -/
theorem C3_exception_path (c : CmdLine) (env : Env) (a : Args) (msg : String)
    (hp : parseArgs c = some a) (hr : stepRaises env msg) :
    (runMain c env).written = some ⟨a.output, errorOutput msg, 2⟩ ∧
    (runMain c env).exitCode = 1 := by
  rcases hr with h | ⟨h1, h⟩ | ⟨h1, h2, h⟩ | ⟨h1, h2, h3, h4, h⟩ |
    ⟨h1, h2, h3, h4, ⟨n, h5⟩, h⟩ | ⟨h1, h2, h3, h4, ⟨n, h5⟩, h6, h⟩
  · simp [runMain, hp, h]
  · simp [runMain, hp, h1, h]
  · simp [runMain, hp, h1, h2, h]
  · simp [runMain, hp, h1, h2, h3, h4, h]
  · simp [runMain, hp, h1, h2, h3, h4, h5, h]
  · simp [runMain, hp, h1, h2, h3, h4, h5, h6, h]

/-- Claim C3 witness: a run in which the transcription call raises writes
the catch-all error object and exits 1. -/
theorem C3_witness :
    (runMain cmdFull envTranscribeFail).written =
      some ⟨"out.json", errorOutput "bad audio", 2⟩ ∧
    (runMain cmdFull envTranscribeFail).exitCode = 1 :=
  C3_exception_path cmdFull envTranscribeFail ⟨"in.wav", "out.json", "tiny"⟩
    "bad audio" rfl
    (Or.inr (Or.inr (Or.inr (Or.inr (Or.inr
      ⟨rfl, rfl, rfl, rfl, ⟨5, rfl⟩, rfl, rfl⟩)))))

/-- Claim C4: on the success path, the library's result segments are
mapped in order, without adding or dropping any, to objects whose "text"
is the segment's `text`, whose "start_time" is the segment's `start`, and
whose "end_time" is the segment's `end`. -/
theorem C4_segment_mapping (c : CmdLine) (env : Env) (a : Args)
    (segs : List TranscribeSegment)
    (hp : parseArgs c = some a)
    (hn : env.numpyImport = none) (ht : env.torchImport = none)
    (hw : env.whisperImport = none) (hex : env.inputExists = true)
    (n : Nat) (hg : env.getSizeResult = .ok n)
    (hl : env.loadModelResult = .ok ())
    (htr : env.transcribeResult = .ok segs) :
    (runMain c env).written =
      some ⟨a.output,
            JsonValue.obj [("segments", JsonValue.arr (segs.map segmentToJson))],
            2⟩ ∧
    (segs.map segmentToJson).length = segs.length ∧
    ∀ (i : Nat) (s : TranscribeSegment), segs[i]? = some s →
      (segs.map segmentToJson)[i]? =
        some (JsonValue.obj
          [("text", JsonValue.str s.text),
           ("start_time", JsonValue.num s.start),
           ("end_time", JsonValue.num s.end_)]) := by
  refine ⟨?_, List.length_map _ _, ?_⟩
  · simp [runMain, hp, hn, ht, hw, hex, hg, hl, htr, successOutput]
  · intro i s hs
    simp [List.getElem?_map, hs, segmentToJson]

/-- Claim C4 witness: a benign run with one result segment maps it to the
expected object. -/
theorem C4_witness :
    (runMain cmdFull envBenign).written =
      some ⟨"out.json",
            JsonValue.obj [("segments", JsonValue.arr ([seg1].map segmentToJson))],
            2⟩ ∧
    ([seg1].map segmentToJson).length = [seg1].length ∧
    ∀ (i : Nat) (s : TranscribeSegment), [seg1][i]? = some s →
      ([seg1].map segmentToJson)[i]? =
        some (JsonValue.obj
          [("text", JsonValue.str s.text),
           ("start_time", JsonValue.num s.start),
           ("end_time", JsonValue.num s.end_)]) :=
  C4_segment_mapping cmdFull envBenign ⟨"in.wav", "out.json", "tiny"⟩ [seg1]
    rfl rfl rfl rfl rfl 5 rfl rfl rfl

/-- Claim C5: for every run in which the input file exists, the model load
succeeds and the transcription is invoked and succeeds, the program writes
`{"segments": [...]}` to the output path with indent 2 and exits with
status 0. -/
theorem C5_success_path (c : CmdLine) (env : Env) (a : Args)
    (segs : List TranscribeSegment)
    (hp : parseArgs c = some a)
    (hex : env.inputExists = true)
    (hl : env.loadModelResult = .ok ())
    (hrun : (runMain c env).transcribeCall ≠ none)
    (hok : env.transcribeResult = .ok segs) :
    (runMain c env).written = some ⟨a.output, successOutput segs, 2⟩ ∧
    (runMain c env).exitCode = 0 := by
  obtain ⟨n, t, wi, ex, gs, lm, tr⟩ := env
  cases n <;> cases t <;> cases wi <;> cases ex <;> cases gs <;> cases lm <;>
    cases tr <;> simp_all [runMain, hp]

/-- Claim C5 witness: a benign run writes the success object and exits
0. -/
theorem C5_witness :
    (runMain cmdFull envBenign).written =
      some ⟨"out.json", successOutput [seg1], 2⟩ ∧
    (runMain cmdFull envBenign).exitCode = 0 :=
  C5_success_path cmdFull envBenign ⟨"in.wav", "out.json", "tiny"⟩ [seg1]
    rfl rfl rfl (fun h => Option.noConfusion h) rfl

/-- Claim C7: whenever `whisper.load_model` is called it is called with
the parsed model name and device "cpu", and whenever `model.transcribe` is
called it is called with the parsed input path and `fp16=False`. -/
theorem C7_device_and_fp16 (c : CmdLine) (env : Env) (a : Args)
    (hp : parseArgs c = some a) :
    (∀ call ∈ (runMain c env).loadCall, call = (a.model, "cpu")) ∧
    (∀ call ∈ (runMain c env).transcribeCall, call = (a.input, false)) := by
  obtain ⟨n, t, wi, ex, gs, lm, tr⟩ := env
  cases n <;> cases t <;> cases wi <;> cases ex <;> cases gs <;> cases lm <;>
    cases tr <;> simp [runMain, hp]

/-- Claim C7 witness: the benign run loads model "tiny" on device "cpu"
and transcribes "in.wav" with fp16 disabled. -/
theorem C7_witness :
    (∀ call ∈ (runMain cmdFull envBenign).loadCall, call = ("tiny", "cpu")) ∧
    (∀ call ∈ (runMain cmdFull envBenign).transcribeCall,
      call = ("in.wav", false)) :=
  C7_device_and_fp16 cmdFull envBenign ⟨"in.wav", "out.json", "tiny"⟩ rfl

/-- Claim C8: the existence check runs only after the imports, so when the
input file does not exist but one of the three imports raises, the output
written is the catch-all error object, whose "segments" value is a
one-element list, and not the empty-segments shape. -/
theorem C8_import_failure_shape (c : CmdLine) (env : Env) (a : Args)
    (msg : String)
    (hp : parseArgs c = some a)
    (_hex : env.inputExists = false)
    (him : env.numpyImport = some msg
         ∨ (env.numpyImport = none ∧ env.torchImport = some msg)
         ∨ (env.numpyImport = none ∧ env.torchImport = none ∧
            env.whisperImport = some msg)) :
    (runMain c env).written = some ⟨a.output, errorOutput msg, 2⟩ ∧
    getField (errorOutput msg) "segments" =
      some (JsonValue.arr [JsonValue.obj
        [("text", JsonValue.str ("Error transcribing audio: " ++ msg)),
         ("start_time", JsonValue.num 0),
         ("end_time", JsonValue.num 0)]]) ∧
    errorOutput msg ≠ missingInputOutput a.input := by
  refine ⟨?_, rfl, ?_⟩
  · rcases him with h | ⟨h1, h⟩ | ⟨h1, h2, h⟩
    · simp [runMain, hp, h]
    · simp [runMain, hp, h1, h]
    · simp [runMain, hp, h1, h2, h]
  · simp [errorOutput, missingInputOutput]

/-- Claim C8 witness: with a failing numpy import and a missing input
file, the catch-all object with a one-element segments list is written. -/
theorem C8_witness :
    (runMain cmdFull envImportFail).written =
      some ⟨"out.json", errorOutput "boom", 2⟩ ∧
    getField (errorOutput "boom") "segments" =
      some (JsonValue.arr [JsonValue.obj
        [("text", JsonValue.str ("Error transcribing audio: " ++ "boom")),
         ("start_time", JsonValue.num 0),
         ("end_time", JsonValue.num 0)]]) ∧
    errorOutput "boom" ≠ missingInputOutput "in.wav" :=
  C8_import_failure_shape cmdFull envImportFail ⟨"in.wav", "out.json", "tiny"⟩
    "boom" rfl rfl (Or.inl rfl)

/-- Claim C9: for every run that writes an output file, the exit status is
0 exactly when the written top-level object has no "error" key, and on the
success path the object's only key is "segments". -/
theorem C9_exit_zero_iff_no_error (c : CmdLine) (env : Env) (w : WriteEvent)
    (hw : (runMain c env).written = some w) :
    ((runMain c env).exitCode = 0 ↔ hasKey w.value "error" = false) ∧
    ((runMain c env).exitCode = 0 → topKeys w.value = ["segments"]) := by
  obtain ⟨n, t, wi, ex, gs, lm, tr⟩ := env
  rcases hpc : parseArgs c with _ | a <;>
    cases n <;> cases t <;> cases wi <;> cases ex <;> cases gs <;> cases lm <;>
    cases tr <;>
    simp [runMain, hpc] at hw ⊢ <;>
    subst hw <;>
    simp [hasKey_errorOutput_error, hasKey_missingInputOutput_error,
      hasKey_successOutput_error, topKeys_successOutput]

/-- Claim C9 witness: the benign run writes the success object, exits 0,
has no "error" key and has "segments" as its only key. -/
theorem C9_witness :
    ((runMain cmdFull envBenign).exitCode = 0 ↔
      hasKey (WriteEvent.mk "out.json" (successOutput [seg1]) 2).value "error"
        = false) ∧
    ((runMain cmdFull envBenign).exitCode = 0 →
      topKeys (WriteEvent.mk "out.json" (successOutput [seg1]) 2).value
        = ["segments"]) :=
  C9_exit_zero_iff_no_error cmdFull envBenign
    (WriteEvent.mk "out.json" (successOutput [seg1]) 2) rfl

/-- Claim C10 counterexample: when the input path equals the output path,
the run opens the input path itself for writing (truncating it), so "the
input file is never modified" fails as stated. -/
theorem C10_counterexample :
    cmdSame.input = some "f" ∧
    parseArgs cmdSame = some ⟨"f", "f", "tiny"⟩ ∧
    writtenPaths (runMain cmdSame envBenign) = ["f"] :=
  ⟨rfl, rfl, rfl⟩

/-- Claim C10 (amended): every path the run opens for writing is the
output path, and nothing at all is written when parsing fails; hence the
input file is not touched whenever the input path differs from the output
path. -/
theorem C10_frame (c : CmdLine) (env : Env) :
    (∀ a : Args, parseArgs c = some a →
      (∀ p ∈ writtenPaths (runMain c env), p = a.output) ∧
      (a.input ≠ a.output → a.input ∉ writtenPaths (runMain c env))) ∧
    (parseArgs c = none → writtenPaths (runMain c env) = []) := by
  constructor
  · intro a hp
    have hall : ∀ p ∈ writtenPaths (runMain c env), p = a.output := by
      obtain ⟨n, t, wi, ex, gs, lm, tr⟩ := env
      cases n <;> cases t <;> cases wi <;> cases ex <;> cases gs <;> cases lm <;>
        cases tr <;> simp [runMain, hp, writtenPaths]
    exact ⟨hall, fun hne hmem => hne (hall _ hmem)⟩
  · intro hp
    simp [runMain, hp, writtenPaths]

/-- Claim C10 witness: for the benign run with distinct paths, every write
goes to "out.json" and "in.wav" is not written. -/
theorem C10_witness :
    (∀ a : Args, parseArgs cmdFull = some a →
      (∀ p ∈ writtenPaths (runMain cmdFull envBenign), p = a.output) ∧
      (a.input ≠ a.output →
        a.input ∉ writtenPaths (runMain cmdFull envBenign))) ∧
    (parseArgs cmdFull = none →
      writtenPaths (runMain cmdFull envBenign) = []) :=
  C10_frame cmdFull envBenign

end WhisperBridge
